import Mathlib

/-!
Shallow embedding of the telemetry logger in src/servo-test/mcaplog.py
(a multiplexing logger with an mcap file sink, a foxglove websocket sink,
a compound fan-out logger and a process-wide singleton), together with
theorems settling claims about its specification.

Python floats are modelled as exact rationals, Python ints as integers,
fallible calls as Except values, and the stateful sinks as explicit state
passing carrying a trace of the calls issued against the external
writer/server libraries.
-/

/-- Log levels, from class Level(enum.IntEnum), mcaplog.py lines 15-25. -/
inductive Level
  | UNKNOWN
  | DEBUG
  | INFO
  | WARNING
  | ERROR
  | FATAL
deriving DecidableEq, Repr

/-- Numeric value of a level: what Python int(level) yields (enum values 0..5). -/
def Level.toInt : Level → Int
  | .UNKNOWN => 0
  | .DEBUG => 1
  | .INFO => 2
  | .WARNING => 3
  | .ERROR => 4
  | .FATAL => 5

/-- Embedding of pylog_level (lines 27-45): foxglove level to the numeric
python logging level. Total on the closed enum; the final raise-ValueError
branch of the source is unreachable for enum inputs. -/
def pylog_level : Level → Int
  | .UNKNOWN => 0
  | .DEBUG => 10
  | .INFO => 20
  | .WARNING => 30
  | .ERROR => 40
  | .FATAL => 50

/-- FOXGLOVE_LOG_TOPIC (line 48); the Python literal includes the backticks. -/
def FOXGLOVE_LOG_TOPIC : String := "`/log`"

/-- FOXGLOVE_LOG_MSG_TYPE (line 50). -/
def FOXGLOVE_LOG_MSG_TYPE : String := "foxglove.Log"

/-- Stands for the constant FOXGLOVE_LOGM_SG_SCHEMA (lines 52-124): the JSON
schema text of foxglove.Log. The program only ever passes this string opaquely
to the external schema-registration calls, so its exact characters are
irrelevant to every claim; the body is abbreviated here. -/
def FOXGLOVE_LOGM_SG_SCHEMA : String := "jsonschema body of foxglove.Log"

/-- NANO (line 127). -/
def NANO : Int := 1000000000

/-- Truncation toward zero of a rational: the behaviour of Python int() on a
finite float. -/
def intTrunc (q : ℚ) : Int := if 0 ≤ q then ⌊q⌋ else ⌈q⌉

/-- Embedding of to_ns (lines 130-134): int(t * NANO). -/
def to_ns (t : ℚ) : Int := intTrunc (t * (NANO : ℚ))

/-- Embedding of to_stamp (lines 137-141) on an int argument:
(t // NANO, t % NANO). Python floor division and modulo by the positive
constant NANO coincide with Lean's Euclidean Int division and modulo. -/
def to_stamp (t : Int) : Int × Int := (t / NANO, t % NANO)

/-- Python t // NANO and t % NANO applied to a float argument, as happens in
MCAPLogger.log (line 290) and in the worker loop (line 394) where to_stamp
receives the raw float stamp: the results are the floats
(floor (t / NANO), t - NANO * floor (t / NANO)). -/
def to_stamp_rat (t : ℚ) : ℚ × ℚ :=
  ((⌊t / (NANO : ℚ)⌋ : ℚ), t - (NANO : ℚ) * (⌊t / (NANO : ℚ)⌋ : ℚ))

theorem nano_pos_rat : (0 : ℚ) < (NANO : ℚ) := by norm_num [NANO]

theorem to_ns_eq_floor (t : ℚ) (ht : 0 ≤ t) : to_ns t = ⌊t * (NANO : ℚ)⌋ := by
  unfold to_ns intTrunc
  rw [if_pos (mul_nonneg ht nano_pos_rat.le)]

theorem to_stamp_recombine (ns : Int) :
    (to_stamp ns).1 * NANO + (to_stamp ns).2 = ns := by
  unfold to_stamp
  have h := Int.ediv_add_emod ns NANO
  linarith

/-- C8: to_ns truncates toward zero after scaling by NANO (for non-negative
inputs this is the floor characterization), to_stamp returns a pair
(sec, nsec) with nsec in [0, NANO) recombining to its argument for every
integer, and the round trip to_stamp (to_ns t) reconstructs a non-negative t
to within one nanosecond. Python floats are modelled as exact rationals. -/
theorem timeCodec_contract :
    (∀ t : ℚ, 0 ≤ t →
      ((to_ns t : ℚ) ≤ t * (NANO : ℚ) ∧ t * (NANO : ℚ) - 1 < (to_ns t : ℚ)))
    ∧ (∀ ns : Int,
        0 ≤ (to_stamp ns).2 ∧ (to_stamp ns).2 < NANO ∧
        (to_stamp ns).1 * NANO + (to_stamp ns).2 = ns)
    ∧ (∀ t : ℚ, 0 ≤ t →
        |t - (((to_stamp (to_ns t)).1 : ℚ) + ((to_stamp (to_ns t)).2 : ℚ) / (NANO : ℚ))|
          < 1 / (NANO : ℚ)) := by
  refine ⟨?_, ?_, ?_⟩
  · intro t ht
    rw [to_ns_eq_floor t ht]
    exact ⟨Int.floor_le _, by linarith [Int.lt_floor_add_one (t * (NANO : ℚ))]⟩
  · intro ns
    refine ⟨?_, ?_, to_stamp_recombine ns⟩
    · exact Int.emod_nonneg ns (by norm_num [NANO])
    · exact Int.emod_lt_of_pos ns (by norm_num [NANO])
  · intro t ht
    have hN := nano_pos_rat
    have h1 := to_stamp_recombine (to_ns t)
    have h1q : ((to_stamp (to_ns t)).1 : ℚ) * (NANO : ℚ) + ((to_stamp (to_ns t)).2 : ℚ)
        = ((to_ns t : Int) : ℚ) := by exact_mod_cast h1
    have h2 : ((to_stamp (to_ns t)).1 : ℚ) + ((to_stamp (to_ns t)).2 : ℚ) / (NANO : ℚ)
        = ((to_ns t : Int) : ℚ) / (NANO : ℚ) := by
      field_simp
      linarith
    rw [h2, to_ns_eq_floor t ht]
    have hfr0 : 0 ≤ t * (NANO : ℚ) - (⌊t * (NANO : ℚ)⌋ : ℚ) := by
      linarith [Int.floor_le (t * (NANO : ℚ))]
    have hfr1 : t * (NANO : ℚ) - (⌊t * (NANO : ℚ)⌋ : ℚ) < 1 := by
      linarith [Int.lt_floor_add_one (t * (NANO : ℚ))]
    have hkey : t - ((⌊t * (NANO : ℚ)⌋ : Int) : ℚ) / (NANO : ℚ)
        = (t * (NANO : ℚ) - (⌊t * (NANO : ℚ)⌋ : ℚ)) / (NANO : ℚ) := by
      field_simp
    rw [hkey, abs_of_nonneg (div_nonneg hfr0 hN.le)]
    exact (div_lt_div_iff_of_pos_right hN).mpr hfr1

/-- C8 witness: the contract instantiated at t = 3/2 and ns = -5. -/
theorem timeCodec_contract_witness :
    ((0 : ℚ) ≤ 3 / 2) ∧
    ((to_ns (3 / 2) : ℚ) ≤ 3 / 2 * (NANO : ℚ) ∧
      3 / 2 * (NANO : ℚ) - 1 < (to_ns (3 / 2) : ℚ)) ∧
    (0 ≤ (to_stamp (-5)).2 ∧ (to_stamp (-5)).2 < NANO ∧
      (to_stamp (-5)).1 * NANO + (to_stamp (-5)).2 = -5) ∧
    |(3 / 2 : ℚ) - (((to_stamp (to_ns (3 / 2))).1 : ℚ)
        + ((to_stamp (to_ns (3 / 2))).2 : ℚ) / (NANO : ℚ))| < 1 / (NANO : ℚ) :=
  ⟨by norm_num,
   timeCodec_contract.1 (3 / 2) (by norm_num),
   timeCodec_contract.2.1 (-5),
   timeCodec_contract.2.2 (3 / 2) (by norm_num)⟩

/-- Registration (lines 151-153): the cached pair of type name and channel id. -/
structure Registration where
  name : String
  channel_id : Int
deriving DecidableEq, Repr

/-- Body of a record on the log topic, the dict built in MCAPLogger.log
(lines 293-300) and in the worker loop (lines 396-403). The sec and nsec
fields are rationals because the Python dict holds the floats produced by
applying to_stamp to the raw float stamp. -/
structure LogBody where
  sec : ℚ
  nsec : ℚ
  level : Int
  message : String
  name : String
  file : String
  line : Int
deriving DecidableEq, Repr

/-- Payload handed to the external writer's add_message: either the
serialized log dict or the serialized pydantic object. -/
inductive MsgData
  | logBody (body : LogBody)
  | objJson (payload : String)
deriving DecidableEq, Repr

/-- A call issued against the external mcap Writer, in order. Schema and
channel identifiers are the successive integers the model assigns; the
program treats them opaquely. -/
inductive WriterCall
  | start
  | registerSchema (name : String) (encoding : String) (data : String)
  | registerChannel (schemaId : Int) (topic : String) (messageEncoding : String)
  | addMessage (channelId : Int) (logTime : Int) (data : MsgData) (publishTime : Int)
  | finish
deriving DecidableEq, Repr

/-- Errors an MCAPLogger operation can surface. conflict is the
AssertionError raised in _register (line 230). closedSink is the spec's
ClosedSinkError vocabulary; it is never produced by the code and is present
only so that claims about post-close behaviour are statable. -/
inductive McapErr
  | conflict (msg : String)
  | closedSink
deriving DecidableEq, Repr

/-- A pydantic model instance at the interface MCAPLogger uses: its class
name, its class schema dump and its instance JSON dump. -/
structure PyObj where
  typeName : String
  schemaJson : String
  json : String
deriving DecidableEq, Repr

/-- State of an MCAPLogger (lines 180-345): the registration cached for the
log topic, the topic-to-registration cache, the trace of calls made against
the external writer, and the counters from which the model derives the ids
the external writer would return. -/
structure MCAPState where
  registrationLog : Registration
  regs : List (String × Registration)
  calls : List WriterCall
  schemaCount : Int
  channelCount : Int
deriving DecidableEq, Repr

/-- Embedding of MCAPLogger._register (lines 227-247): return the cached
registration when the topic was seen with the same type name, raise an
AssertionError naming the topic and the cached type name when it was seen
with a different one, and otherwise perform one register_schema and one
register_channel call and cache the new registration. -/
def MCAPLogger_register (s : MCAPState) (topicName nm schema : String) :
    Except McapErr Registration × MCAPState :=
  match List.lookup topicName s.regs with
  | some cached =>
      if cached.name = nm then (Except.ok cached, s)
      else (Except.error (McapErr.conflict
              ("Topic " ++ topicName ++ " registered with " ++ cached.name)), s)
  | none =>
      let cached : Registration := ⟨nm, s.channelCount⟩
      (Except.ok cached,
        { registrationLog := s.registrationLog
          regs := (topicName, cached) :: s.regs
          calls := s.calls ++
            [WriterCall.registerSchema nm "jsonschema" schema,
             WriterCall.registerChannel s.schemaCount topicName "json"]
          schemaCount := s.schemaCount + 1
          channelCount := s.channelCount + 1 })

/-- Embedding of MCAPLogger.publish (lines 254-274): resolve the payload's
class through _register_class / _register, then append one add_message call
with to_ns stamp as both log and publish time. An exception from
registration propagates. -/
def MCAPLogger_publish (s : MCAPState) (topicName : String) (obj : PyObj)
    (stamp : ℚ) : Except McapErr MCAPState :=
  let r := MCAPLogger_register s topicName obj.typeName obj.schemaJson
  match r.1 with
  | Except.error e => Except.error e
  | Except.ok reg =>
      Except.ok { r.2 with calls := r.2.calls ++
        [WriterCall.addMessage reg.channel_id (to_ns stamp)
          (MsgData.objJson obj.json) (to_ns stamp)] }

/-- The record body MCAPLogger.log builds (lines 290-300): to_stamp applied
to the raw float stamp for the timestamp field, int(level) for the level. -/
def MCAPLogBody (msg : String) (stamp : ℚ) (level : Level) : LogBody :=
  { sec := (to_stamp_rat stamp).1
    nsec := (to_stamp_rat stamp).2
    level := level.toInt
    message := msg
    name := "cartpole"
    file := "/dev/null"
    line := 0 }

/-- Embedding of MCAPLogger.log (lines 276-306): append one add_message call
on the pre-registered log channel, with to_ns stamp as log and publish time
and the MCAPLogBody dict as data. The source performs no closed-state check
and never raises. -/
def MCAPLogger_log (s : MCAPState) (msg : String) (stamp : ℚ) (level : Level) :
    Except McapErr MCAPState :=
  Except.ok { s with calls := s.calls ++
    [WriterCall.addMessage s.registrationLog.channel_id (to_ns stamp)
      (MsgData.logBody (MCAPLogBody msg stamp level)) (to_ns stamp)] }

/-- Embedding of MCAPLogger.close (lines 338-342): it only calls
writer.finish(); no flag is set and no subsequent-call check exists. -/
def MCAPLogger_close (s : MCAPState) : MCAPState :=
  { s with calls := s.calls ++ [WriterCall.finish] }

/-- Embedding of MCAPLogger.__init__ (lines 195-222): start the writer and
preventively register the log topic. On the fresh state the registration
always succeeds, so the error branch is unreachable. -/
def MCAPLogger_init : MCAPState :=
  let s0 : MCAPState :=
    { registrationLog := ⟨FOXGLOVE_LOG_MSG_TYPE, 0⟩
      regs := []
      calls := [WriterCall.start]
      schemaCount := 0
      channelCount := 0 }
  match MCAPLogger_register s0 FOXGLOVE_LOG_TOPIC FOXGLOVE_LOG_MSG_TYPE
      FOXGLOVE_LOGM_SG_SCHEMA with
  | (Except.ok reg, s1) => { s1 with registrationLog := reg }
  | (Except.error _, s1) => s1

/-- Register never produces the closedSink error: its only error is the
type-name conflict assertion. -/
theorem mcapRegister_no_closedSink (s : MCAPState) (topicName nm schema : String) :
    (MCAPLogger_register s topicName nm schema).1 ≠ Except.error McapErr.closedSink := by
  unfold MCAPLogger_register
  cases h : List.lookup topicName s.regs with
  | none => simp
  | some cached =>
      by_cases hn : cached.name = nm <;> simp [hn]

/-- C6: resolving a topic that is already cached with the same type name
returns the identical cached Registration and leaves the state (hence the
trace of registration calls against the external writer) unchanged. -/
theorem mcapRegister_idempotent :
    ∀ (s : MCAPState) (topicName nm schema : String) (r : Registration),
      List.lookup topicName s.regs = some r → r.name = nm →
      MCAPLogger_register s topicName nm schema = (Except.ok r, s) := by
  intro s topicName nm schema r hl hn
  unfold MCAPLogger_register
  rw [hl]
  simp [hn]

/-- C6 witness: a state holding topic /t with type Alpha, resolved again
with Alpha. -/
theorem mcapRegister_idempotent_witness :
    MCAPLogger_register ⟨⟨"x", 0⟩, [("/t", ⟨"Alpha", 7⟩)], [], 0, 0⟩ "/t" "Alpha" "sch"
      = (Except.ok ⟨"Alpha", 7⟩, ⟨⟨"x", 0⟩, [("/t", ⟨"Alpha", 7⟩)], [], 0, 0⟩) :=
  mcapRegister_idempotent _ _ _ _ _ rfl rfl

/-- C5 (amended): resolving a topic cached with type name A under a
different type name B fails with the conflict error whose message names the
topic and the previously registered type name A, and the state, hence the
cached Registration, is unchanged. -/
theorem mcapRegister_conflict :
    ∀ (s : MCAPState) (topicName a b schema : String) (cid : Int),
      List.lookup topicName s.regs = some ⟨a, cid⟩ → a ≠ b →
      MCAPLogger_register s topicName b schema =
        (Except.error (McapErr.conflict
          ("Topic " ++ topicName ++ " registered with " ++ a)), s) := by
  intro s topicName a b schema cid hl hne
  unfold MCAPLogger_register
  rw [hl]
  simp [hne]

/-- C5 witness: topic /t cached with Alpha, re-resolved with Beta. -/
theorem mcapRegister_conflict_witness :
    MCAPLogger_register ⟨⟨"x", 0⟩, [("/t", ⟨"Alpha", 7⟩)], [], 0, 0⟩ "/t" "Beta" "sch"
      = (Except.error (McapErr.conflict
          ("Topic " ++ "/t" ++ " registered with " ++ "Alpha")),
         ⟨⟨"x", 0⟩, [("/t", ⟨"Alpha", 7⟩)], [], 0, 0⟩) :=
  mcapRegister_conflict _ "/t" "Alpha" "Beta" "sch" 7 rfl (by decide)

/-- Boolean check that one character list starts with another. -/
def listStartsWith : List Char → List Char → Bool
  | [], _ => true
  | _ :: _, [] => false
  | a :: as, b :: bs => a == b && listStartsWith as bs

/-- Boolean substring check on character lists. -/
def listInfixOf (needle : List Char) : List Char → Bool
  | [] => listStartsWith needle []
  | b :: bs => listStartsWith needle (b :: bs) || listInfixOf needle bs

/-- C5 counterexample: with topic /t cached under type Alpha, re-resolving
with type Beta raises a message that does not mention the new type name
Beta at all, so the error does not name both type names as claimed. -/
theorem mcapRegister_conflict_message_counterexample :
    (MCAPLogger_register ⟨⟨"x", 0⟩, [("/t", ⟨"Alpha", 7⟩)], [], 0, 0⟩ "/t" "Beta" "sch").1
      = Except.error (McapErr.conflict "Topic /t registered with Alpha")
    ∧ listInfixOf "Beta".data "Topic /t registered with Alpha".data = false
    ∧ listInfixOf "Alpha".data "Topic /t registered with Alpha".data = true :=
  ⟨rfl, by decide, by decide⟩

/-- C4 (amended): MCAPLogger keeps no closed flag, so after close()
(which only calls writer.finish()) a log call is not rejected: it appends
its add_message call to the finished writer unchanged, and a publish call
can fail only with the registration conflict error, never with a
closed-sink error. -/
theorem mcap_after_close_pass_through :
    (∀ (s : MCAPState) (msg : String) (stamp : ℚ) (lvl : Level),
      MCAPLogger_log (MCAPLogger_close s) msg stamp lvl =
        Except.ok { MCAPLogger_close s with
          calls := (MCAPLogger_close s).calls ++
            [WriterCall.addMessage (MCAPLogger_close s).registrationLog.channel_id
              (to_ns stamp) (MsgData.logBody (MCAPLogBody msg stamp lvl)) (to_ns stamp)] })
    ∧ (∀ (s : MCAPState) (topicName : String) (obj : PyObj) (stamp : ℚ),
        MCAPLogger_publish (MCAPLogger_close s) topicName obj stamp
          ≠ Except.error McapErr.closedSink) := by
  constructor
  · intro s msg stamp lvl
    rfl
  · intro s topicName obj stamp
    have haux := mcapRegister_no_closedSink (MCAPLogger_close s) topicName
      obj.typeName obj.schemaJson
    unfold MCAPLogger_publish
    cases hr : (MCAPLogger_register (MCAPLogger_close s) topicName
        obj.typeName obj.schemaJson).1 with
    | error e =>
        rw [hr] at haux
        simp only [hr]
        simpa using haux
    | ok reg =>
        simp only [hr]
        simp

/-- C4 witness for the publish conjunct: a concrete publish after close is
not a closed-sink error. -/
theorem mcap_after_close_pass_through_witness :
    MCAPLogger_publish (MCAPLogger_close MCAPLogger_init) "/t" ⟨"T", "s", "j"⟩ 0
      ≠ Except.error McapErr.closedSink :=
  mcap_after_close_pass_through.2 MCAPLogger_init "/t" ⟨"T", "s", "j"⟩ 0

/-- C4 counterexample: on the initial logger, close() then log() is accepted
(the result is an ok state, not a ClosedSinkError), refuting the claim that
operating on a finalized sink is detected. -/
theorem mcapLog_after_close_counterexample :
    (MCAPLogger_log (MCAPLogger_close MCAPLogger_init) "m" 0 Level.INFO).isOk = true :=
  rfl

/-- C10: MCAPLogger.log computes the record body's timestamp field by
applying Python floor-division and modulo by NANO to the raw stamp argument
(a float holding seconds), while the container's log and publish times are
int(stamp * NANO); for every stamp strictly between 0 and NANO the body's
(sec, nsec) pair therefore differs from to_stamp applied to the record's
log time. -/
theorem mcapLog_body_timestamp_mismatch :
    ∀ (s : MCAPState) (msg : String) (lvl : Level) (stamp : ℚ),
      0 < stamp → stamp < (NANO : ℚ) →
      (MCAPLogger_log s msg stamp lvl =
        Except.ok { s with calls := s.calls ++
          [WriterCall.addMessage s.registrationLog.channel_id (to_ns stamp)
            (MsgData.logBody (MCAPLogBody msg stamp lvl)) (to_ns stamp)] })
      ∧ ((MCAPLogBody msg stamp lvl).sec, (MCAPLogBody msg stamp lvl).nsec) ≠
          (((to_stamp (to_ns stamp)).1 : ℚ), ((to_stamp (to_ns stamp)).2 : ℚ)) := by
  intro s msg lvl stamp h0 hN
  refine ⟨rfl, ?_⟩
  have hNq := nano_pos_rat
  have hfl : ⌊stamp / (NANO : ℚ)⌋ = 0 := by
    rw [Int.floor_eq_zero_iff]
    refine Set.mem_Ico.mpr ⟨div_nonneg h0.le hNq.le, ?_⟩
    rw [div_lt_one hNq]
    exact hN
  have hsec : (MCAPLogBody msg stamp lvl).sec = 0 := by
    simp [MCAPLogBody, to_stamp_rat, hfl]
  have hnsec : (MCAPLogBody msg stamp lvl).nsec = stamp := by
    simp [MCAPLogBody, to_stamp_rat, hfl]
  have hn := to_ns_eq_floor stamp h0.le
  have hn0 : 0 ≤ to_ns stamp := by
    rw [hn]
    exact Int.floor_nonneg.mpr (mul_nonneg h0.le hNq.le)
  have hfst : (to_stamp (to_ns stamp)).1 = to_ns stamp / NANO := rfl
  have hsnd : (to_stamp (to_ns stamp)).2 = to_ns stamp % NANO := rfl
  intro hEq
  have hsecEq : (MCAPLogBody msg stamp lvl).sec = ((to_stamp (to_ns stamp)).1 : ℚ) :=
    congrArg Prod.fst hEq
  have hnsecEq : (MCAPLogBody msg stamp lvl).nsec = ((to_stamp (to_ns stamp)).2 : ℚ) :=
    congrArg Prod.snd hEq
  rcases lt_or_le stamp 1 with hs1 | hs1
  · have hlt : to_ns stamp < NANO := by
      rw [hn]
      apply Int.floor_lt.mpr
      calc stamp * (NANO : ℚ) < 1 * (NANO : ℚ) := mul_lt_mul_of_pos_right hs1 hNq
        _ = ((NANO : Int) : ℚ) := one_mul _
    have hmod : (to_stamp (to_ns stamp)).2 = to_ns stamp := by
      rw [hsnd]
      exact Int.emod_eq_of_lt hn0 hlt
    rw [hnsec, hmod] at hnsecEq
    have hzpos : (0 : ℚ) < ((to_ns stamp : Int) : ℚ) := by
      rw [← hnsecEq]
      exact h0
    have hz : (0 : Int) < to_ns stamp := by exact_mod_cast hzpos
    have h1le : (1 : ℚ) ≤ ((to_ns stamp : Int) : ℚ) := by exact_mod_cast hz
    rw [← hnsecEq] at h1le
    linarith
  · have hge : NANO ≤ to_ns stamp := by
      rw [hn]
      apply Int.le_floor.mpr
      calc ((NANO : Int) : ℚ) = 1 * (NANO : ℚ) := (one_mul _).symm
        _ ≤ stamp * (NANO : ℚ) := mul_le_mul_of_nonneg_right hs1 hNq.le
    have hdiv1 : 1 ≤ (to_stamp (to_ns stamp)).1 := by
      rw [hfst]
      have hmono := Int.ediv_le_ediv (by norm_num [NANO] : (0 : Int) < NANO) hge
      rwa [Int.ediv_self (by norm_num [NANO] : (NANO : Int) ≠ 0)] at hmono
    rw [hsec] at hsecEq
    have hq0 : ((to_stamp (to_ns stamp)).1 : ℚ) = 0 := hsecEq.symm
    have hz0 : (to_stamp (to_ns stamp)).1 = 0 := by exact_mod_cast hq0
    omega

/-- C10 witness: the mismatch at stamp = 1/2 on the freshly initialized
sink. -/
theorem mcapLog_body_timestamp_mismatch_witness :
    ((0 : ℚ) < 1 / 2) ∧ ((1 / 2 : ℚ) < (NANO : ℚ)) ∧
    ((MCAPLogBody "m" (1 / 2) Level.INFO).sec, (MCAPLogBody "m" (1 / 2) Level.INFO).nsec) ≠
      (((to_stamp (to_ns (1 / 2))).1 : ℚ), ((to_stamp (to_ns (1 / 2))).2 : ℚ)) :=
  ⟨by norm_num, by norm_num [NANO],
   (mcapLog_body_timestamp_mismatch MCAPLogger_init "m" Level.INFO (1 / 2)
     (by norm_num) (by norm_num [NANO])).2⟩

/-- Payload carried by a queue item handed to the foxglove worker: a plain
string (log messages) or a pydantic object. -/
inductive FoxPayload
  | str (text : String)
  | obj (o : PyObj)
deriving DecidableEq, Repr

/-- A queue item (topic_name, stamp, obj), line 498. -/
abbrev FoxItem := String × ℚ × FoxPayload

/-- What a producer-side publish call raises when the worker is dead: the
stored worker exception (line 494) or the not-running AssertionError
(line 496). -/
inductive PubErr (ε : Type)
  | stored (e : ε)
  | notRunning
deriving DecidableEq

/-- Producer-visible state of a FoxgloveWebsocketLogger: whether the event
loop is running and the worker thread alive, the pending input queue, and
the exception queue filled by _foxglove_async_wrapping. -/
structure FoxState (ε : Type) where
  loopRunning : Bool
  threadAlive : Bool
  pending : List FoxItem
  excQueue : List ε

/-- Embedding of FoxgloveWebsocketLogger.publish (lines 478-499): when the
loop is running and the thread alive, enqueue the item and return ok;
otherwise raise the first stored worker exception, removing it from the
queue (get_nowait), or the not-running assertion when none is stored. -/
def FoxglovePublish {ε : Type} (s : FoxState ε) (item : FoxItem) :
    Except (PubErr ε) Unit × FoxState ε :=
  if s.loopRunning && s.threadAlive then
    (Except.ok (), { s with pending := s.pending ++ [item] })
  else
    match s.excQueue with
    | e :: rest => (Except.error (PubErr.stored e), { s with excQueue := rest })
    | [] => (Except.error PubErr.notRunning, s)

/-- State after the worker loop raised the exception e: per
_foxglove_async_wrapping (lines 416-424) the exception is caught and put on
the exception queue, run_until_complete then returns and the thread exits,
so the loop is no longer running and the worker thread no longer alive. -/
def workerFailed {ε : Type} (e : ε) : FoxState ε :=
  { loopRunning := false, threadAlive := false, pending := [], excQueue := [e] }

/-- The results of a sequence of publish calls, threading the sink state. -/
def publishResults {ε : Type} : FoxState ε → List FoxItem →
    List (Except (PubErr ε) Unit) × FoxState ε
  | s, [] => ([], s)
  | s, i :: is =>
      let r := FoxglovePublish s i
      let rest := publishResults r.2 is
      (r.1 :: rest.1, rest.2)

theorem publishResults_dead {ε : Type} (is : List FoxItem) (s : FoxState ε)
    (h1 : s.loopRunning = false) (h2 : s.excQueue = []) :
    publishResults s is = (is.map (fun _ => Except.error PubErr.notRunning), s) := by
  induction is with
  | nil => rfl
  | cons i is ih =>
      have hp : FoxglovePublish s i = (Except.error PubErr.notRunning, s) := by
        simp [FoxglovePublish, h1, h2]
      simp [publishResults, hp, ih]

/-- C2: after the worker loop raised e, the worker thread is dead and the
exception is stored; among the subsequent publish calls exactly the first
raises the stored exception (removing it from the exception queue), and
every later publish call raises the not-running error. -/
theorem foxglovePublish_surfaces_worker_exception_once :
    ∀ (ε : Type) (e : ε) (i : FoxItem) (is : List FoxItem),
      (workerFailed e).threadAlive = false ∧
      (workerFailed e).excQueue = [e] ∧
      (publishResults (workerFailed e) (i :: is)).1 =
        Except.error (PubErr.stored e) ::
          is.map (fun _ => Except.error PubErr.notRunning) := by
  intro ε e i is
  refine ⟨rfl, rfl, ?_⟩
  have hp : FoxglovePublish (workerFailed e) i =
      (Except.error (PubErr.stored e),
       { loopRunning := false, threadAlive := false, pending := [], excQueue := [] }) := rfl
  have hd := publishResults_dead is
    ({ loopRunning := false, threadAlive := false, pending := [],
       excQueue := [] } : FoxState ε) rfl rfl
  simp [publishResults, hp, hd]

/-- Embedding of FoxgloveWebsocketLogger.log (lines 501-515): it calls
publish on the fixed log topic with the plain message string as payload.
Its level parameter is dropped: the call it makes is
publish(FOXGLOVE_LOG_TOPIC, msg, stamp), with no level. -/
def FoxgloveWebsocketLogger_log {ε : Type} (s : FoxState ε) (msg : String)
    (stamp : ℚ) (_level : Level) : Except (PubErr ε) Unit × FoxState ε :=
  FoxglovePublish s (FOXGLOVE_LOG_TOPIC, stamp, FoxPayload.str msg)

/-- A message broadcast by the worker over the websocket:
server.send_message(channel_id, to_ns stamp, data), line 410. -/
structure BroadcastMsg where
  channelId : Int
  timestampNs : Int
  body : LogBody
deriving DecidableEq, Repr

/-- The log-topic branch of the worker receive loop
(_foxglove_async_entrypoint, lines 390-405 and 410): for a dequeued item on
the log topic whose payload is a string, build the log dict with to_stamp
applied to the raw stamp and with int(level) of the worker's configured
level (the entrypoint's level parameter), then broadcast it on the log
channel. Items outside this branch (other topics, or a non-string payload,
which the source asserts against) are mapped to none. -/
def foxgloveWorkerLogStep (sinkLevel : Level) (logChannelId : Int)
    (item : FoxItem) : Option BroadcastMsg :=
  match item with
  | (topicName, stamp, FoxPayload.str text) =>
      if topicName = FOXGLOVE_LOG_TOPIC then
        some { channelId := logChannelId
               timestampNs := to_ns stamp
               body := { sec := (to_stamp_rat stamp).1
                         nsec := (to_stamp_rat stamp).2
                         level := sinkLevel.toInt
                         message := text
                         name := "cartpole"
                         file := "/dev/null"
                         line := 0 } }
      else none
  | _ => none

/-- End-to-end effect of NetworkSink.log on a running sink: the item the
producer-side log call enqueues (the head of the pending queue after the
call), processed by the worker's log-topic branch. -/
def foxgloveLogBroadcast (sinkLevel : Level) (logChannelId : Int)
    (msg : String) (stamp : ℚ) (callLevel : Level) : Option BroadcastMsg :=
  ((FoxgloveWebsocketLogger_log (ε := Unit)
      { loopRunning := true, threadAlive := true, pending := [], excQueue := [] }
      msg stamp callLevel).2.pending.head?).bind
    (foxgloveWorkerLogStep sinkLevel logChannelId)

/-- C3 evaluated at the failing input: on a sink constructed with level
INFO, log("hi", stamp 1, severity ERROR) broadcasts a record whose level
field is 2 (the sink's configured level), while the severity argument of
the call is 4: log discards its level argument (line 515) and the worker
writes int(level) of the worker's level (line 398), so the broadcast record
does not carry the call's severity. -/
theorem foxgloveLog_level_at_failing_input :
    (foxgloveLogBroadcast Level.INFO 0 "hi" 1 Level.ERROR).map (fun b => b.body.level)
      = some 2
    ∧ Level.ERROR.toInt = 4 :=
  ⟨rfl, rfl⟩

/-- One step of the compound Logger close teardown. -/
inductive CloseStep
  | foxgloveClose
  | mcapClose
deriving DecidableEq, Repr

/-- Outcome of Logger.close: which sink closes were attempted, in order,
and the exception surfaced to the caller, if any. -/
structure CloseOutcome (ε : Type) where
  steps : List CloseStep
  raised : Option ε
deriving DecidableEq, Repr

/-- Embedding of Logger.close (lines 658-665): self._foxglove_log.close(),
then self._mcap_log.close() when an mcap log is configured. There is no
try/finally: an exception from the first close propagates immediately and
the second close is never attempted. The parameters give the exception, if
any, each underlying close would raise. -/
def Logger_close {ε : Type} (hasMcap : Bool) (fgExc mcExc : Option ε) :
    CloseOutcome ε :=
  match fgExc with
  | some e => { steps := [CloseStep.foxgloveClose], raised := some e }
  | none =>
      if hasMcap then
        { steps := [CloseStep.foxgloveClose, CloseStep.mcapClose], raised := mcExc }
      else
        { steps := [CloseStep.foxgloveClose], raised := none }

/-- C1 counterexample: with a file sink configured and the network close
raising, Logger.close attempts only the network close and re-raises at
once: the file close is skipped, refuting the claim that both close paths
are attempted even if the first raises. -/
theorem loggerClose_counterexample :
    (Logger_close (ε := Unit) true (some ()) none).steps = [CloseStep.foxgloveClose]
    ∧ (Logger_close (ε := Unit) true (some ()) none).raised = some ()
    ∧ [CloseStep.foxgloveClose].contains CloseStep.mcapClose = false :=
  ⟨rfl, rfl, by decide⟩

/-- C1 (amended): Logger.close closes the network sink first and then the
file sink; when the network close raises, the exception propagates at once
and the file close is skipped (fail-fast, not best-effort); when it does
not raise, the file close is attempted and its exception, if any, is what
the caller sees. -/
theorem loggerClose_fail_fast :
    ∀ (ε : Type) (e : ε) (mcExc : Option ε),
      Logger_close true (some e) mcExc =
        { steps := [CloseStep.foxgloveClose], raised := some e }
      ∧ Logger_close true (none : Option ε) mcExc =
        { steps := [CloseStep.foxgloveClose, CloseStep.mcapClose], raised := mcExc } := by
  intro ε e mcExc
  exact ⟨rfl, rfl⟩

/-- A call the compound Logger fans a log line out to: the console write
(line 622), the foxglove log call (line 623) and, when a file sink is
configured, the mcap log call (line 626). The console action carries the
data of the formatted line. -/
inductive SinkCall
  | console (pyLevel : Int) (stamp : ℚ) (msg : String)
  | foxgloveLogCall (msg : String) (stamp : ℚ) (level : Level)
  | mcapLogCall (msg : String) (stamp : ℚ) (level : Level)
deriving DecidableEq

/-- Embedding of Logger.log (lines 608-626): console first, then the
foxglove log call, then the mcap log call when configured. -/
def Logger_log (hasMcap : Bool) (msg : String) (stamp : ℚ) (level : Level) :
    List SinkCall :=
  [SinkCall.console (pylog_level level) stamp msg,
   SinkCall.foxgloveLogCall msg stamp level] ++
  (if hasMcap then [SinkCall.mcapLogCall msg stamp level] else [])

/-- A Python positional argument value as passed between the compound
logger's methods. -/
inductive PyVal
  | str (s : String)
  | rat (q : ℚ)
  | lvl (l : Level)
deriving DecidableEq

/-- Python-level error raised by a dynamic call. -/
inductive PyError
  | typeError
deriving DecidableEq

/-- A dynamic positional call of Logger.info (lines 634-638), whose
parameter list besides self is (msg, stamp): a call with exactly a message
string and a stamp runs the body self.log(msg, stamp, Level.INFO); any
other positional argument list, in particular one with a different number
of arguments, raises TypeError. -/
def Logger_info_call (hasMcap : Bool) (args : List PyVal) :
    Except PyError (List SinkCall) :=
  match args with
  | [PyVal.str msg, PyVal.rat stamp] =>
      Except.ok (Logger_log hasMcap msg stamp Level.INFO)
  | _ => Except.error PyError.typeError

/-- Embedding of Logger.debug (lines 628-632): it calls
self.info(msg, stamp, Level.DEBUG), i.e. forwards three positional
arguments to the two-parameter method info. -/
def Logger_debug (hasMcap : Bool) (msg : String) (stamp : ℚ) :
    Except PyError (List SinkCall) :=
  Logger_info_call hasMcap [PyVal.str msg, PyVal.rat stamp, PyVal.lvl Level.DEBUG]

/-- C9: the compound logger's debug shorthand always fails with TypeError
(three positional arguments forwarded to the two-parameter info method),
producing no sink calls and hence no record, while a well-formed
two-argument info call succeeds with the fan-out of Logger.log. -/
theorem loggerDebug_typeError :
    ∀ (hasMcap : Bool) (msg : String) (stamp : ℚ),
      Logger_debug hasMcap msg stamp = Except.error PyError.typeError
      ∧ Logger_info_call hasMcap [PyVal.str msg, PyVal.rat stamp] =
          Except.ok (Logger_log hasMcap msg stamp Level.INFO) := by
  intro hasMcap msg stamp
  exact ⟨rfl, rfl⟩

/-- The constructor arguments of a live compound Logger instance held by
the module-level singleton (Logger.__init__, lines 574-589). -/
structure LoggerInst where
  logPath : String
  level : Level
deriving DecidableEq, Repr

/-- The module-level singleton state: the optional current instance
(__logger, line 671) together with, as the observable history, the
instances closed so far in order. -/
structure GlobalState where
  current : Option LoggerInst
  closedLog : List LoggerInst
deriving DecidableEq, Repr

/-- Embedding of the module-level close() (lines 691-700): when an instance
is set, close it and reset the slot to None; otherwise do nothing. -/
def GlobalLog.close (s : GlobalState) : GlobalState :=
  match s.current with
  | some inst => { current := none, closedLog := s.closedLog ++ [inst] }
  | none => s

/-- Embedding of setup(log_path, level) (lines 674-688): unconditionally
call close() first, then install a freshly constructed Logger instance. -/
def GlobalLog.setup (logPath : String) (level : Level) (s : GlobalState) :
    GlobalState :=
  { current := some { logPath := logPath, level := level }
    closedLog := (GlobalLog.close s).closedLog }

/-- Embedding of get_logger() (lines 706-715): when no instance is set, run
setup() with its default arguments (empty path, hence no file sink, and
level INFO), then return the instance. -/
def GlobalLog.get_logger (s : GlobalState) : GlobalState :=
  match s.current with
  | some _ => s
  | none => GlobalLog.setup "" Level.INFO s

/-- C7: the global lifecycle holds at most one live instance: setup always
ends in the Set state and closes any existing instance first; close closes
the instance and moves to Unset, and is a no-op when already Unset; and
get_logger in the Unset state performs setup with the default arguments
before returning the instance. -/
theorem globalLifecycle_spec :
    (∀ (p : String) (l : Level) (s : GlobalState),
      (GlobalLog.setup p l s).current = some ⟨p, l⟩)
    ∧ (∀ (p : String) (l : Level) (s : GlobalState) (inst : LoggerInst),
        s.current = some inst →
        (GlobalLog.setup p l s).closedLog = s.closedLog ++ [inst])
    ∧ (∀ (s : GlobalState) (inst : LoggerInst),
        s.current = some inst →
        GlobalLog.close s = ⟨none, s.closedLog ++ [inst]⟩)
    ∧ (∀ s : GlobalState, s.current = none → GlobalLog.close s = s)
    ∧ (∀ s : GlobalState, s.current = none →
        GlobalLog.get_logger s = GlobalLog.setup "" Level.INFO s
        ∧ (GlobalLog.get_logger s).current = some ⟨"", Level.INFO⟩) := by
  refine ⟨?_, ?_, ?_, ?_, ?_⟩
  · intro p l s
    rfl
  · intro p l s inst h
    simp [GlobalLog.setup, GlobalLog.close, h]
  · intro s inst h
    simp [GlobalLog.close, h]
  · intro s h
    simp [GlobalLog.close, h]
  · intro s h
    constructor
    · simp [GlobalLog.get_logger, h]
    · simp [GlobalLog.get_logger, GlobalLog.setup, h]

/-- C7 witness: the lifecycle facts at concrete states, with an instance
set and with the slot unset. -/
theorem globalLifecycle_spec_witness :
    (GlobalLog.setup "x" Level.DEBUG ⟨some ⟨"a", Level.INFO⟩, []⟩).current
      = some ⟨"x", Level.DEBUG⟩
    ∧ (GlobalLog.setup "x" Level.DEBUG ⟨some ⟨"a", Level.INFO⟩, []⟩).closedLog
      = [] ++ [⟨"a", Level.INFO⟩]
    ∧ GlobalLog.close ⟨some ⟨"a", Level.INFO⟩, []⟩
      = ⟨none, [] ++ [⟨"a", Level.INFO⟩]⟩
    ∧ GlobalLog.close (⟨none, []⟩ : GlobalState) = ⟨none, []⟩
    ∧ (GlobalLog.get_logger ⟨none, []⟩ = GlobalLog.setup "" Level.INFO ⟨none, []⟩
        ∧ (GlobalLog.get_logger (⟨none, []⟩ : GlobalState)).current
          = some ⟨"", Level.INFO⟩) :=
  ⟨globalLifecycle_spec.1 "x" Level.DEBUG ⟨some ⟨"a", Level.INFO⟩, []⟩,
   globalLifecycle_spec.2.1 "x" Level.DEBUG ⟨some ⟨"a", Level.INFO⟩, []⟩ ⟨"a", Level.INFO⟩ rfl,
   globalLifecycle_spec.2.2.1 ⟨some ⟨"a", Level.INFO⟩, []⟩ ⟨"a", Level.INFO⟩ rfl,
   globalLifecycle_spec.2.2.2.1 ⟨none, []⟩ rfl,
   globalLifecycle_spec.2.2.2.2 ⟨none, []⟩ rfl⟩
